import Mathlib

/-!
Shallow embedding of the images-on-map marker CRUD service (src/main.go):
the data model (Marker, Coords, Image), the validation and normalization
functions, an in-memory document store with mongo-like single-document
operations, and the four HTTP handlers (List/GET, Create/POST,
Delete/DELETE, Update/PUT) with their response mapping.
-/

/-- IEEE-754 double values as relevant to coordinate validation: NaN, the
two infinities, and finite values (represented exactly as rationals, which
is faithful because the code only compares against small integer literals
and float64 comparisons on finite values agree with the rational order).
Ordered comparisons involving NaN are false, as in IEEE 754. -/
inductive F64 where
  | nan : F64
  | neginf : F64
  | fin : ℚ → F64
  | inf : F64
deriving DecidableEq

/-- The float64 `<` comparison: false whenever either side is NaN. -/
def F64.lt : F64 → F64 → Bool
  | .nan, _ => false
  | _, .nan => false
  | .neginf, .neginf => false
  | .neginf, _ => true
  | _, .neginf => false
  | .inf, _ => false
  | .fin _, .inf => true
  | .fin q, .fin r => decide (q < r)

/-- The float64 `>` comparison: false whenever either side is NaN. -/
def F64.gt (a b : F64) : Bool := F64.lt b a

/-- `x` lies in the closed interval `[lo, hi]`: only finite values do. -/
def F64.withinRange (x : F64) (lo hi : ℚ) : Bool :=
  match x with
  | .fin q => decide (lo ≤ q ∧ q ≤ hi)
  | _ => false

/-- `Coords` from src/main.go: latitude and longitude, both float64. -/
structure Coords where
  Latitude : F64
  Longitude : F64
deriving DecidableEq

/-- `Image` from src/main.go. Go `int` dimensions are modelled as `Int`
(the code only compares them with 0, so overflow is irrelevant). -/
structure Image where
  ID : String
  URI : String
  Width : Int
  Height : Int
deriving DecidableEq

/-- `Marker` from src/main.go. The `Images` slice can be nil in Go;
`none` models a nil slice and `some l` a non-nil slice with elements `l`. -/
structure Marker where
  ID : String
  Name : String
  Location : Coords
  Images : Option (List Image)
deriving DecidableEq

/-- `Coords.Validate` from src/main.go: `some msg` models a non-nil error
with message `msg`, `none` models a nil error. -/
def Coords.Validate (c : Coords) : Option String :=
  if c.Latitude.lt (.fin (-180)) || c.Latitude.gt (.fin 180) then
    some "invalid latitude"
  else if c.Longitude.lt (.fin (-90)) || c.Longitude.gt (.fin 90) then
    some "invalid longitude"
  else
    none

/-- `Image.Validate` from src/main.go. -/
def Image.Validate (i : Image) : Option String :=
  if i.ID = "" then some "empty id"
  else if i.URI = "" then some "empty uri"
  else if i.Width ≤ 0 ∨ i.Height ≤ 0 then some "invalid dimensions"
  else none

/-- The elements a Go `for range` loop visits for `m.Images`:
a nil slice ranges over nothing. -/
def Marker.imagesOrEmpty (m : Marker) : List Image := m.Images.getD []

/-- The image loop of `Marker.Validate`: returns the wrapped error of the
first image that fails validation, in sequence order. -/
def firstImageError : List Image → Option String
  | [] => none
  | i :: rest =>
    match i.Validate with
    | some e => some ("invalid image " ++ i.ID ++ ": " ++ e)
    | none => firstImageError rest

/-- `Marker.Validate` from src/main.go. -/
def Marker.Validate (m : Marker) : Option String :=
  if m.ID = "" then some "empty id"
  else if m.Name = "" then some "empty name"
  else
    match m.Location.Validate with
    | some e => some ("invalid location: " ++ e)
    | none => firstImageError m.imagesOrEmpty

/-- `Marker.Normalize` from src/main.go: a nil image slice becomes an
empty slice; everything else is unchanged. -/
def Marker.Normalize (m : Marker) : Marker :=
  match m.Images with
  | none => { m with Images := some [] }
  | some _ => m

/-- The mongo `markers` collection: documents in store order. -/
structure Store where
  markers : List Marker
deriving DecidableEq

/-- Whether a document with the given `_id` exists in the collection. -/
def Store.hasId (db : Store) (id : String) : Bool :=
  db.markers.any (fun m => m.ID = id)

/-- `InsertOne`: appends the document (callers reach this only when the
`_id` is not already present, otherwise mongo reports error code 11000). -/
def Store.insertOne (db : Store) (m : Marker) : Store :=
  ⟨db.markers ++ [m]⟩

/-- `DeleteOne` with filter `{_id: id}`: removes the first matching
document, a no-op when none matches. -/
def Store.deleteOne (db : Store) (id : String) : Store :=
  ⟨db.markers.eraseP (fun m => m.ID = id)⟩

/-- Replace the first document whose `_id` matches; no-op when none does. -/
def replaceFirst (id : String) (m : Marker) : List Marker → List Marker
  | [] => []
  | x :: rest => if x.ID = id then m :: rest else x :: replaceFirst id m rest

/-- `ReplaceOne` with filter `{_id: id}` (no upsert). -/
def Store.replaceOne (db : Store) (id : String) (m : Marker) : Store :=
  ⟨replaceFirst id m db.markers⟩

/-- The JSON body of a handler response: empty (NoContent), an error
object `\x7b"error": msg\x7d`, a JSON array of markers, or JSON `null`
(what a nil slice would serialize to). -/
inductive ResponseBody where
  | empty : ResponseBody
  | errObj : String → ResponseBody
  | jsonMarkers : List Marker → ResponseBody
  | jsonNull : ResponseBody
deriving DecidableEq

/-- An HTTP response: status code and body. -/
structure Response where
  status : Nat
  body : ResponseBody
deriving DecidableEq

/-- The GET handler (List). `fault` injects an infrastructure error of the
`Find`/`cursor.All` store calls (`some e` means the call failed with
message `e`); when the store call succeeds the handler serializes the
`results` slice, which is initialized to the non-nil empty slice
`[]Marker\x7b\x7d` and filled by `cursor.All`, hence never null. -/
def getMarkers (db : Store) (fault : Option String) : Response :=
  match fault with
  | some e => ⟨503, .errObj e⟩
  | none => ⟨200, .jsonMarkers db.markers⟩

/-- The POST handler (Create). `bind` is the result of deserializing the
request body (`Except.error e` models a Bind failure). `fault` injects an
infrastructure error of the `InsertOne` call; a duplicate `_id` surfaces
as mongo write error 11000, which the ideal store reports exactly when
the id is already present. Returns the response and the updated store. -/
def postMarker (db : Store) (bind : Except String Marker)
    (fault : Option String) : Response × Store :=
  match bind with
  | .error e => (⟨400, .errObj e⟩, db)
  | .ok body =>
    match body.Validate with
    | some e => (⟨400, .errObj e⟩, db)
    | none =>
      match fault with
      | some e => (⟨503, .errObj e⟩, db)
      | none =>
        if db.hasId body.Normalize.ID then
          (⟨400, .errObj "duplicated id"⟩, db)
        else
          (⟨201, .empty⟩, db.insertOne body.Normalize)

/-- The DELETE handler. `fault` injects an infrastructure error of the
`DeleteOne` call. Returns the response and the updated store. -/
def deleteMarker (db : Store) (id : String) (fault : Option String) :
    Response × Store :=
  match fault with
  | some e => (⟨503, .errObj e⟩, db)
  | none => (⟨200, .empty⟩, db.deleteOne id)

/-- Result of the PUT handler: the response, the resulting store, and
whether a store operation (`ReplaceOne`) was issued at all. -/
structure PutResult where
  resp : Response
  db : Store
  storeCalled : Bool
deriving DecidableEq

/-- The PUT handler (Update): bind, then path/body id comparison, then
validation, then `ReplaceOne`. `fault` injects an infrastructure error of
the `ReplaceOne` call. -/
def putMarker (db : Store) (id : String) (bind : Except String Marker)
    (fault : Option String) : PutResult :=
  match bind with
  | .error e => ⟨⟨400, .errObj e⟩, db, false⟩
  | .ok body =>
    if body.ID ≠ id then
      ⟨⟨400, .errObj "id in path and body doesn't match"⟩, db, false⟩
    else
      match body.Validate with
      | some e => ⟨⟨400, .errObj e⟩, db, false⟩
      | none =>
        match fault with
        | some e => ⟨⟨503, .errObj e⟩, db, true⟩
        | none => ⟨⟨200, .empty⟩, db.replaceOne id body.Normalize, true⟩

example : Coords.Validate ⟨.fin 0, .fin 0⟩ = none := by decide
example : Coords.Validate ⟨.nan, .fin 0⟩ = none := by decide
example : Coords.Validate ⟨.fin 200, .fin 0⟩ = some "invalid latitude" := by decide
example : Coords.Validate ⟨.fin 100, .fin 100⟩ = some "invalid longitude" := by decide
example : Coords.Validate ⟨.inf, .fin 0⟩ = some "invalid latitude" := by decide
example : Marker.Validate ⟨"", "n", ⟨.fin 0, .fin 0⟩, none⟩ = some "empty id" := by decide
example : Marker.Validate ⟨"a", "n", ⟨.fin 0, .fin 0⟩, some [⟨"i", "u", 0, 5⟩]⟩ =
    some "invalid image i: invalid dimensions" := by decide

/-! ### Helper lemmas -/

theorem Marker.Normalize_ID (m : Marker) : m.Normalize.ID = m.ID := by
  rcases m with ⟨id, name, loc, imgs⟩
  cases imgs <;> rfl

theorem Marker.Normalize_Name (m : Marker) : m.Normalize.Name = m.Name := by
  rcases m with ⟨id, name, loc, imgs⟩
  cases imgs <;> rfl

theorem Marker.Normalize_Location (m : Marker) :
    m.Normalize.Location = m.Location := by
  rcases m with ⟨id, name, loc, imgs⟩
  cases imgs <;> rfl

theorem Marker.Normalize_Images (m : Marker) :
    m.Normalize.Images = some (m.Images.getD []) := by
  rcases m with ⟨id, name, loc, imgs⟩
  cases imgs <;> rfl

theorem firstImageError_eq_none (l : List Image)
    (h : ∀ i ∈ l, i.Validate = none) : firstImageError l = none := by
  induction l with
  | nil => rfl
  | cons i rest ih =>
    have hi := h i (by simp)
    simp only [firstImageError, hi]
    exact ih fun j hj => h j (by simp [hj])

theorem firstImageError_append (l1 rest : List Image)
    (h : ∀ i ∈ l1, i.Validate = none) :
    firstImageError (l1 ++ rest) = firstImageError rest := by
  induction l1 with
  | nil => rfl
  | cons i l ih =>
    have hi := h i (by simp)
    simp only [List.cons_append, firstImageError, hi]
    exact ih fun j hj => h j (by simp [hj])

theorem firstImageError_cons_some (i : Image) (rest : List Image) (e : String)
    (h : i.Validate = some e) :
    firstImageError (i :: rest) = some ("invalid image " ++ i.ID ++ ": " ++ e) := by
  simp only [firstImageError, h]

/-! ### Claims -/

/-- C9: `Normalize` leaves `ID`, `Name` and `Location` unchanged, leaves a
non-nil image sequence unchanged and replaces a nil one with the empty
sequence, and is idempotent. -/
theorem normalize_frame_and_idempotent (m : Marker) :
    m.Normalize.ID = m.ID ∧ m.Normalize.Name = m.Name ∧
    m.Normalize.Location = m.Location ∧
    (∀ l, m.Images = some l → m.Normalize.Images = some l) ∧
    (m.Images = none → m.Normalize.Images = some []) ∧
    m.Normalize.Normalize = m.Normalize := by
  rcases m with ⟨id, name, loc, imgs⟩
  cases imgs <;> simp [Marker.Normalize]

/-- Witness for C9: the frame conditions evaluated on a concrete marker
with a nil image sequence. -/
theorem normalize_frame_and_idempotent_witness :
    (Marker.mk "m1" "n" ⟨.fin 1, .fin 2⟩ none).Normalize.Images = some [] :=
  (normalize_frame_and_idempotent ⟨"m1", "n", ⟨.fin 1, .fin 2⟩, none⟩).2.2.2.2.1 rfl

/-- C6: List on an empty store returns 200 with an empty JSON array (not
JSON null), and any store error makes List return 503 carrying the error. -/
theorem list_empty_store_and_store_errors :
    getMarkers ⟨[]⟩ none = ⟨200, ResponseBody.jsonMarkers []⟩ ∧
    ResponseBody.jsonMarkers [] ≠ ResponseBody.jsonNull ∧
    (∀ (db : Store) (e : String),
      getMarkers db (some e) = ⟨503, ResponseBody.errObj e⟩) :=
  ⟨rfl, by simp, fun _ _ => rfl⟩

/-- C7: Delete issues a single delete-by-id with no prior existence check
and returns 200 with no content whenever the store call succeeds, in
particular when no document matches the id (the store is then unchanged);
a store error yields 503. -/
theorem delete_unconditional (db : Store) (id : String) :
    deleteMarker db id none = (⟨200, ResponseBody.empty⟩, db.deleteOne id) ∧
    (db.hasId id = false →
      deleteMarker db id none = (⟨200, ResponseBody.empty⟩, db)) ∧
    (∀ e, deleteMarker db id (some e) = (⟨503, ResponseBody.errObj e⟩, db)) := by
  refine ⟨rfl, fun h => ?_, fun _ => rfl⟩
  have hnone : db.markers.eraseP (fun m => m.ID = id) = db.markers := by
    apply List.eraseP_of_forall_not
    intro a ha
    simp only [Store.hasId, List.any_eq_false] at h
    simpa using h a ha
  simp [deleteMarker, Store.deleteOne, hnone]

/-- Witness for C7: deleting a missing id from a concrete one-element
store returns 200 and leaves the store unchanged. -/
theorem delete_unconditional_witness :
    deleteMarker ⟨[⟨"m1", "n", ⟨.fin 0, .fin 0⟩, some []⟩]⟩ "other" none =
      (⟨200, ResponseBody.empty⟩, ⟨[⟨"m1", "n", ⟨.fin 0, .fin 0⟩, some []⟩]⟩) :=
  (delete_unconditional ⟨[⟨"m1", "n", ⟨.fin 0, .fin 0⟩, some []⟩]⟩ "other").2.1
    (by decide)

/-- C5: when the Update body deserializes but its id differs from the path
id, the handler returns 400 with exactly "id in path and body doesn't
match", no store operation is performed and the store is unchanged — for
every body, in particular invalid ones, showing the check precedes
validation; a deserialization failure is reported first, showing the check
follows deserialization. -/
theorem update_id_mismatch (db : Store) (id : String) (body : Marker)
    (fault : Option String) (hne : body.ID ≠ id) :
    putMarker db id (.ok body) fault =
      ⟨⟨400, ResponseBody.errObj "id in path and body doesn't match"⟩, db, false⟩ ∧
    (∀ e, putMarker db id (.error e) fault =
      ⟨⟨400, ResponseBody.errObj e⟩, db, false⟩) := by
  refine ⟨?_, fun _ => rfl⟩
  simp [putMarker, hne]

/-- Witness for C5: path id "a", body id "b", with a body that would fail
validation — the mismatch message is still the one returned. -/
theorem update_id_mismatch_witness :
    putMarker ⟨[]⟩ "a" (.ok ⟨"b", "", ⟨.fin 999, .fin 0⟩, none⟩) none =
      ⟨⟨400, ResponseBody.errObj "id in path and body doesn't match"⟩, ⟨[]⟩, false⟩ :=
  (update_id_mismatch ⟨[]⟩ "a" ⟨"b", "", ⟨.fin 999, .fin 0⟩, none⟩ none
    (by decide)).1

/-- C4: after a valid body, an insert that reports a uniqueness violation
on the id (mongo error 11000, i.e. the id is already stored) yields 400
with exactly "duplicated id"; any other store error yields 503 carrying
the error. -/
theorem create_duplicate_and_store_errors (db : Store) (body : Marker)
    (hvalid : body.Validate = none) :
    (db.hasId body.ID = true →
      postMarker db (.ok body) none =
        (⟨400, ResponseBody.errObj "duplicated id"⟩, db)) ∧
    (∀ e, postMarker db (.ok body) (some e) =
      (⟨503, ResponseBody.errObj e⟩, db)) := by
  constructor
  · intro hdup
    simp [postMarker, hvalid, Marker.Normalize_ID, hdup]
  · intro e
    simp [postMarker, hvalid]

/-- Witness for C4: inserting a valid marker whose id is already stored
returns 400 "duplicated id". -/
theorem create_duplicate_and_store_errors_witness :
    postMarker ⟨[⟨"m1", "x", ⟨.fin 0, .fin 0⟩, some []⟩]⟩
        (.ok ⟨"m1", "n", ⟨.fin 1, .fin 1⟩, none⟩) none =
      (⟨400, ResponseBody.errObj "duplicated id"⟩,
       ⟨[⟨"m1", "x", ⟨.fin 0, .fin 0⟩, some []⟩]⟩) :=
  (create_duplicate_and_store_errors ⟨[⟨"m1", "x", ⟨.fin 0, .fin 0⟩, some []⟩]⟩
    ⟨"m1", "n", ⟨.fin 1, .fin 1⟩, none⟩ (by decide)).1 (by decide)

/-- C1: a body that passes validation is inserted normalized, Create
returns 201 with no content, and a subsequent List returns 200 with an
array containing the inserted marker, which equals the body except that a
nil image sequence has become the empty sequence. -/
theorem create_then_list_includes_marker (db : Store) (body : Marker)
    (hvalid : body.Validate = none) (hfresh : db.hasId body.ID = false) :
    (postMarker db (.ok body) none).1 = ⟨201, ResponseBody.empty⟩ ∧
    (postMarker db (.ok body) none).2 = db.insertOne body.Normalize ∧
    getMarkers (postMarker db (.ok body) none).2 none =
      ⟨200, ResponseBody.jsonMarkers (db.markers ++ [body.Normalize])⟩ ∧
    body.Normalize ∈ db.markers ++ [body.Normalize] ∧
    body.Normalize.ID = body.ID ∧ body.Normalize.Name = body.Name ∧
    body.Normalize.Location = body.Location ∧
    body.Normalize.Images = some (body.Images.getD []) := by
  have hpost : postMarker db (.ok body) none =
      (⟨201, ResponseBody.empty⟩, db.insertOne body.Normalize) := by
    simp [postMarker, hvalid, Marker.Normalize_ID, hfresh]
  refine ⟨by rw [hpost], by rw [hpost], ?_, by simp, Marker.Normalize_ID body,
    Marker.Normalize_Name body, Marker.Normalize_Location body,
    Marker.Normalize_Images body⟩
  rw [hpost]
  rfl

/-- Witness for C1: creating a concrete valid marker with a nil image
sequence in the empty store stores it with an empty image sequence. -/
theorem create_then_list_includes_marker_witness :
    getMarkers (postMarker ⟨[]⟩ (.ok ⟨"m1", "n", ⟨.fin 10, .fin 20⟩, none⟩) none).2
        none =
      ⟨200, ResponseBody.jsonMarkers [⟨"m1", "n", ⟨.fin 10, .fin 20⟩, some []⟩]⟩ :=
  (create_then_list_includes_marker ⟨[]⟩ ⟨"m1", "n", ⟨.fin 10, .fin 20⟩, none⟩
    (by decide) (by decide)).2.2.1

/-- C3: Marker validation checks id, name, location, then the images in
sequence order, reporting the first violation; an image violation's
message includes the offending image's id. Image validation checks id,
uri, then dimensions. -/
theorem marker_validation_order (m : Marker) :
    (m.ID = "" → m.Validate = some "empty id") ∧
    (m.ID ≠ "" → m.Name = "" → m.Validate = some "empty name") ∧
    (∀ e, m.ID ≠ "" → m.Name ≠ "" → m.Location.Validate = some e →
      m.Validate = some ("invalid location: " ++ e)) ∧
    (∀ l1 i l2 e, m.ID ≠ "" → m.Name ≠ "" → m.Location.Validate = none →
      m.imagesOrEmpty = l1 ++ i :: l2 → (∀ j ∈ l1, j.Validate = none) →
      i.Validate = some e →
      m.Validate = some ("invalid image " ++ i.ID ++ ": " ++ e)) ∧
    (m.ID ≠ "" → m.Name ≠ "" → m.Location.Validate = none →
      (∀ j ∈ m.imagesOrEmpty, j.Validate = none) → m.Validate = none) ∧
    (∀ i : Image,
      (i.ID = "" → i.Validate = some "empty id") ∧
      (i.ID ≠ "" → i.URI = "" → i.Validate = some "empty uri") ∧
      (i.ID ≠ "" → i.URI ≠ "" → (i.Width ≤ 0 ∨ i.Height ≤ 0) →
        i.Validate = some "invalid dimensions") ∧
      (i.ID ≠ "" → i.URI ≠ "" → 0 < i.Width → 0 < i.Height →
        i.Validate = none)) := by
  refine ⟨?_, ?_, ?_, ?_, ?_, ?_⟩
  · intro h
    simp [Marker.Validate, h]
  · intro h1 h2
    simp [Marker.Validate, h1, h2]
  · intro e h1 h2 h3
    simp [Marker.Validate, h1, h2, h3]
  · intro l1 i l2 e h1 h2 h3 himg hok hbad
    simp only [Marker.Validate, if_neg h1, if_neg h2, h3, himg]
    rw [firstImageError_append l1 (i :: l2) hok,
      firstImageError_cons_some i l2 e hbad]
  · intro h1 h2 h3 hall
    simp only [Marker.Validate, if_neg h1, if_neg h2, h3]
    exact firstImageError_eq_none _ hall
  · intro i
    refine ⟨?_, ?_, ?_, ?_⟩
    · intro h
      simp [Image.Validate, h]
    · intro h1 h2
      simp [Image.Validate, h1, h2]
    · intro h1 h2 h3
      simp [Image.Validate, h1, h2, h3]
    · intro h1 h2 h3 h4
      simp only [Image.Validate, if_neg h1, if_neg h2]
      rw [if_neg]
      omega

/-- Witness for C3: each branch of the validation order evaluated on a
concrete marker or image. -/
theorem marker_validation_order_witness :
    Marker.Validate ⟨"", "n", ⟨.fin 0, .fin 0⟩, none⟩ = some "empty id" ∧
    Marker.Validate ⟨"a", "", ⟨.fin 0, .fin 0⟩, none⟩ = some "empty name" ∧
    Marker.Validate ⟨"a", "n", ⟨.fin 200, .fin 0⟩, none⟩ =
      some ("invalid location: " ++ "invalid latitude") ∧
    Marker.Validate ⟨"a", "n", ⟨.fin 0, .fin 0⟩,
        some [⟨"i1", "u", 1, 1⟩, ⟨"i2", "u", 0, 1⟩]⟩ =
      some ("invalid image " ++ "i2" ++ ": " ++ "invalid dimensions") ∧
    Marker.Validate ⟨"a", "n", ⟨.fin 0, .fin 0⟩, some [⟨"i1", "u", 1, 1⟩]⟩ =
      none ∧
    Image.Validate ⟨"i1", "u", 0, 5⟩ = some "invalid dimensions" :=
  ⟨(marker_validation_order ⟨"", "n", ⟨.fin 0, .fin 0⟩, none⟩).1 rfl,
   (marker_validation_order ⟨"a", "", ⟨.fin 0, .fin 0⟩, none⟩).2.1
     (by decide) rfl,
   (marker_validation_order ⟨"a", "n", ⟨.fin 200, .fin 0⟩, none⟩).2.2.1
     "invalid latitude" (by decide) (by decide) (by decide),
   (marker_validation_order ⟨"a", "n", ⟨.fin 0, .fin 0⟩,
       some [⟨"i1", "u", 1, 1⟩, ⟨"i2", "u", 0, 1⟩]⟩).2.2.2.1
     [⟨"i1", "u", 1, 1⟩] ⟨"i2", "u", 0, 1⟩ [] "invalid dimensions"
     (by decide) (by decide) (by decide) rfl (by decide) (by decide),
   (marker_validation_order ⟨"a", "n", ⟨.fin 0, .fin 0⟩,
       some [⟨"i1", "u", 1, 1⟩]⟩).2.2.2.2.1
     (by decide) (by decide) (by decide) (by decide),
   ((marker_validation_order ⟨"a", "n", ⟨.fin 0, .fin 0⟩, none⟩).2.2.2.2.2
     ⟨"i1", "u", 0, 5⟩).2.2.1 (by decide) (by decide) (by left; decide)⟩

/-- C2 counterexample: a Coords with NaN latitude and longitude 0 passes
validation even though its latitude is not within [-180, 180], so
validation success is not equivalent to both coordinates lying within the
stated bounds. -/
theorem coords_validate_iff_counterexample :
    ¬ (Coords.Validate ⟨F64.nan, F64.fin 0⟩ = none ↔
      (F64.withinRange (Coords.mk F64.nan (F64.fin 0)).Latitude (-180) 180 = true ∧
       F64.withinRange (Coords.mk F64.nan (F64.fin 0)).Longitude (-90) 90 = true)) := by
  decide

/-- C2 amended: for Coords neither of whose components is NaN, validation
succeeds if and only if the latitude lies within [-180, 180] and the
longitude within [-90, 90]; every such pair outside the bounds is
rejected and every pair within them is accepted. -/
theorem coords_validate_iff_nonNaN (c : Coords)
    (hla : c.Latitude ≠ F64.nan) (hlo : c.Longitude ≠ F64.nan) :
    Coords.Validate c = none ↔
      (c.Latitude.withinRange (-180) 180 = true ∧
       c.Longitude.withinRange (-90) 90 = true) := by
  rcases c with ⟨la, lo⟩
  simp only at hla hlo
  cases la with
  | nan => exact absurd rfl hla
  | neginf => simp [Coords.Validate, F64.lt, F64.gt, F64.withinRange]
  | inf => simp [Coords.Validate, F64.lt, F64.gt, F64.withinRange]
  | fin q =>
    cases lo with
    | nan => exact absurd rfl hlo
    | neginf =>
      constructor
      · intro h
        exfalso
        simp only [Coords.Validate, F64.lt, F64.gt] at h
        split_ifs at h
        all_goals simp_all
      · rintro ⟨-, h⟩
        exact absurd h (by simp [F64.withinRange])
    | inf =>
      constructor
      · intro h
        exfalso
        simp only [Coords.Validate, F64.lt, F64.gt] at h
        split_ifs at h
        all_goals simp_all
      · rintro ⟨-, h⟩
        exact absurd h (by simp [F64.withinRange])
    | fin r =>
      simp only [Coords.Validate, F64.lt, F64.gt, F64.withinRange,
        Bool.or_eq_true, decide_eq_true_eq]
      split_ifs with h1 h2
      · constructor
        · intro h
          exact absurd h (by simp)
        · rintro ⟨⟨ha, hb⟩, -⟩
          exfalso
          rcases h1 with h | h <;> linarith
      · constructor
        · intro h
          exact absurd h (by simp)
        · rintro ⟨-, hc, hd⟩
          exfalso
          rcases h2 with h | h <;> linarith
      · push_neg at h1 h2
        exact iff_of_true rfl ⟨⟨h1.1, h1.2⟩, h2.1, h2.2⟩

/-- Witness for C2 amended: a concrete in-bounds finite pair is accepted. -/
theorem coords_validate_iff_nonNaN_witness :
    Coords.Validate ⟨F64.fin 45, F64.fin (-60)⟩ = none ↔
      (F64.withinRange (Coords.mk (F64.fin 45) (F64.fin (-60))).Latitude (-180) 180 = true ∧
       F64.withinRange (Coords.mk (F64.fin 45) (F64.fin (-60))).Longitude (-90) 90 = true) :=
  coords_validate_iff_nonNaN ⟨F64.fin 45, F64.fin (-60)⟩ (by decide) (by decide)

/-- C10: ordered comparisons on NaN are false, so a Coords whose latitude
and longitude are NaN passes validation although neither coordinate lies
within its stated range, and a marker with such coordinates (and otherwise
valid fields) passes Marker validation. -/
theorem coords_nan_passes_validation (c : Coords)
    (hla : c.Latitude = F64.nan) (hlo : c.Longitude = F64.nan) :
    (∀ x, F64.lt F64.nan x = false ∧ F64.gt F64.nan x = false) ∧
    Coords.Validate c = none ∧
    c.Latitude.withinRange (-180) 180 = false ∧
    c.Longitude.withinRange (-90) 90 = false ∧
    (∀ m : Marker, m.ID ≠ "" → m.Name ≠ "" → m.Location = c →
      (∀ i ∈ m.imagesOrEmpty, i.Validate = none) → m.Validate = none) := by
  rcases c with ⟨la, lo⟩
  simp only at hla hlo
  subst hla hlo
  refine ⟨fun x => by cases x <;> simp [F64.lt, F64.gt], rfl, rfl, rfl, ?_⟩
  intro m h1 h2 h3 h4
  simp only [Marker.Validate, if_neg h1, if_neg h2, h3]
  exact firstImageError_eq_none _ h4

/-- Witness for C10: a concrete marker whose coordinates are both NaN
passes Marker validation. -/
theorem coords_nan_passes_validation_witness :
    Marker.Validate ⟨"m1", "n", ⟨F64.nan, F64.nan⟩, some [⟨"i1", "u", 1, 1⟩]⟩ =
      none :=
  (coords_nan_passes_validation ⟨F64.nan, F64.nan⟩ rfl rfl).2.2.2.2
    ⟨"m1", "n", ⟨F64.nan, F64.nan⟩, some [⟨"i1", "u", 1, 1⟩]⟩
    (by decide) (by decide) rfl (by decide)

/-- C8 counterexample: a marker whose two images share the id "i1" passes
validation, Create accepts it with 201, and its image ids are not unique
within the marker — within-parent image-id uniqueness is not enforced. -/
theorem image_id_uniqueness_counterexample :
    Marker.Validate ⟨"m1", "n", ⟨.fin 0, .fin 0⟩,
        some [⟨"i1", "u", 1, 1⟩, ⟨"i1", "u2", 2, 2⟩]⟩ = none ∧
    (postMarker ⟨[]⟩
        (.ok ⟨"m1", "n", ⟨.fin 0, .fin 0⟩,
          some [⟨"i1", "u", 1, 1⟩, ⟨"i1", "u2", 2, 2⟩]⟩) none).1.status = 201 ∧
    ¬ ((Marker.mk "m1" "n" ⟨.fin 0, .fin 0⟩
        (some [⟨"i1", "u", 1, 1⟩, ⟨"i1", "u2", 2, 2⟩])).imagesOrEmpty.map
          Image.ID).Nodup := by
  decide

/-- C8 amended: Create and Update do not enforce within-marker uniqueness
of image ids — there is a marker with duplicate image ids that passes
validation and is accepted (stored) by both Create and Update. -/
theorem accepted_marker_may_duplicate_image_ids :
    ∃ (m : Marker) (db : Store),
      Marker.Validate m = none ∧
      ¬ (m.imagesOrEmpty.map Image.ID).Nodup ∧
      (postMarker db (.ok m) none).1 = ⟨201, ResponseBody.empty⟩ ∧
      m.Normalize ∈ ((postMarker db (.ok m) none).2).markers ∧
      (putMarker ⟨[m.Normalize]⟩ m.ID (.ok m) none).resp =
        ⟨200, ResponseBody.empty⟩ ∧
      (putMarker ⟨[m.Normalize]⟩ m.ID (.ok m) none).storeCalled = true := by
  refine ⟨⟨"m1", "n", ⟨.fin 0, .fin 0⟩,
    some [⟨"i1", "u", 1, 1⟩, ⟨"i1", "u2", 2, 2⟩]⟩, ⟨[]⟩, ?_, ?_, ?_, ?_, ?_, ?_⟩
  all_goals decide
